import Mathlib

/-
Verification development for `web/api/printer_discovery.py`: the
presence-registry / mailbox-queue relay built on a Redis-style expiring
key-value store.

Modelling notes (shallow embedding):

* Time is modelled as an integer (`ℤ`).  Python passes wall-clock floats,
  but the code only subtracts a window from a timestamp and compares the
  result with stored scores, so any linearly ordered abelian group of
  timestamps gives the same behaviour; `ℤ` keeps every concrete run of the
  model kernel-computable.

* The Redis store is modelled as a flat keyspace `String → Option RVal`,
  where a value is either a scored set (Redis ZSET, an association list of
  member/score pairs) or a plain string value.  Key strings are built by the
  same concatenations as the Python f-strings.  Key TTLs (`expire`/`setex`
  lifetimes) are wall-clock side state that no claim quantifies over; TTL
  bookkeeping is therefore not part of the state, while the *values* written
  by `setex` are.  A key holding a value of the wrong kind for an operation
  (Redis would answer WRONGTYPE) is read as absent/empty.

* Python strings stored as ZSET members or string values are modelled by
  `RStr`: either a plain string (`RStr.plain`), or the canonical JSON
  serialization of a `DeviceMessage` / `DeviceInfo` produced by `to_json`
  (`json.dumps(dataclasses.asdict(...))`, which is injective on the
  dataclass).  `RStr.plain` stands for exactly the strings that are *not*
  such a canonical serialization, so `from_json` fails on them; this mirrors
  that `json.loads` + serializer validation accepts precisely the canonical
  encodings of valid dataclass values.  `RStr.pyStr` recovers the underlying
  Python string where one is needed as a key component.

* The rest_framework serializer checks are modelled by the decidable
  predicates `msgValidB` / `infoValidB` (required-ness, exact/maximum
  lengths, non-blank where `allow_blank` is not set).  `is_valid(raise_exception=True)`
  raising is modelled by `Except.error`; `json.loads` failure likewise.
  CharField whitespace-trimming is not modelled (all concrete inputs used
  below are whitespace-free).

* Redis ZSET iteration order: `zrangebyscore` and `zpopmin` order by score
  ascending; among equal scores Redis orders lexicographically by member,
  while the model uses the (stable) underlying list order.  No claim below
  depends on the relative order of distinct members with equal scores.
-/

/-- Python `dict` payload of a `DeviceMessage` (`data` field): a string-keyed
mapping, modelled as an ordered association list (Python dicts preserve
insertion order, and `json.dumps` serializes them in that order). -/
abbrev PyDict := List (String × String)

/-- Mirrors the `DeviceMessage` dataclass. -/
structure DeviceMessage where
  device_id : String
  type : String
  data : PyDict
deriving DecidableEq

/-- Mirrors the `DeviceInfo` dataclass. -/
structure DeviceInfo where
  device_id : String
  hostname : String
  os : String
  arch : String
  octopi_version : String
  rpi_model : String
  printerprofile : String
deriving DecidableEq

/-- A Python string as stored in Redis: a plain string, or the canonical
JSON serialization of one of the two dataclasses (see header notes). -/
inductive RStr where
  | plain (s : String)
  | msgJson (m : DeviceMessage)
  | infoJson (i : DeviceInfo)
deriving DecidableEq

/-- JSON-style rendering of a `PyDict`, standing for `json.dumps` of the dict. -/
def pyDictStr (d : PyDict) : String :=
  "\x7b" ++ String.intercalate ", " (d.map (fun p => "\"" ++ p.1 ++ "\": \"" ++ p.2 ++ "\"")) ++ "\x7d"

/-- The underlying Python string of an `RStr` (used where a stored member is
spliced into a key, and for Python truthiness). -/
def RStr.pyStr : RStr → String
  | .plain s => s
  | .msgJson m =>
      "\x7b\"device_id\": \"" ++ m.device_id ++ "\", \"type\": \"" ++ m.type ++
        "\", \"data\": " ++ pyDictStr m.data ++ "\x7d"
  | .infoJson i =>
      "\x7b\"device_id\": \"" ++ i.device_id ++ "\", \"hostname\": \"" ++ i.hostname ++
        "\", \"os\": \"" ++ i.os ++ "\", \"arch\": \"" ++ i.arch ++
        "\", \"octopi_version\": \"" ++ i.octopi_version ++ "\", \"rpi_model\": \"" ++ i.rpi_model ++
        "\", \"printerprofile\": \"" ++ i.printerprofile ++ "\"\x7d"

/-- Python truthiness of the stored string: only the empty string is falsy
(`if not device_info_raw`). -/
def RStr.isFalsy : RStr → Bool
  | .plain s => s = ""
  | _ => false

/-- An exception escaping the Python code. -/
inductive PyErr where
  | jsonDecode
  | validationError
deriving DecidableEq

instance {ε α : Type} [DecidableEq ε] [DecidableEq α] : DecidableEq (Except ε α) := fun a b =>
  match a, b with
  | .ok x, .ok y =>
    if h : x = y then .isTrue (congrArg Except.ok h)
    else .isFalse (fun hh => h (Except.ok.inj hh))
  | .error x, .error y =>
    if h : x = y then .isTrue (congrArg Except.error h)
    else .isFalse (fun hh => h (Except.error.inj hh))
  | .ok _, .error _ => .isFalse (fun hh => Except.noConfusion hh)
  | .error _, .ok _ => .isFalse (fun hh => Except.noConfusion hh)

/-- `DeviceMessageSerializer` field constraints: `device_id` exactly 32
characters, `type` a non-blank string of at most 64 characters, `data` a
dict (always true of `PyDict`). -/
def msgValidB (m : DeviceMessage) : Bool :=
  m.device_id.length = 32 && 0 < m.type.length && m.type.length ≤ 64

/-- `DeviceInfoSerializer` field constraints: `device_id` exactly 32
characters, `hostname` non-blank of at most 253 characters, the remaining
fields blank-allowed of at most 253 characters. -/
def infoValidB (i : DeviceInfo) : Bool :=
  i.device_id.length = 32 &&
  (0 < i.hostname.length && i.hostname.length ≤ 253) &&
  i.os.length ≤ 253 && i.arch.length ≤ 253 && i.rpi_model.length ≤ 253 &&
  i.octopi_version.length ≤ 253 && i.printerprofile.length ≤ 253

/-- `DeviceMessage.to_json`: `json.dumps(dataclasses.asdict(self))`. -/
def DeviceMessage.to_json (m : DeviceMessage) : RStr := .msgJson m

/-- `DeviceMessage.from_json`: `json.loads` then serializer validation with
`raise_exception=True`.  It RAISES on a malformed payload (it never returns
`None`; the `if msg is not None` guard at the call site is dead code). -/
def DeviceMessage.from_json : RStr → Except PyErr DeviceMessage
  | .msgJson m => if msgValidB m then .ok m else .error .validationError
  | .plain _ => .error .jsonDecode
  | .infoJson _ => .error .validationError

/-- `DeviceInfo.to_json`. -/
def DeviceInfo.to_json (i : DeviceInfo) : RStr := .infoJson i

/-- `DeviceInfo.from_json`: `json.loads` then validation (the `v or ''`
re-mapping is the identity on strings); raises on a malformed payload. -/
def DeviceInfo.from_json : RStr → Except PyErr DeviceInfo
  | .infoJson i => if infoValidB i then .ok i else .error .validationError
  | .plain _ => .error .jsonDecode
  | .msgJson _ => .error .validationError

/-- A Redis value: a scored set (ZSET) or a plain string value. -/
inductive RVal where
  | zset (entries : List (RStr × ℤ))
  | str (s : RStr)
deriving DecidableEq

/-- The Redis keyspace. -/
abbrev Store := String → Option RVal

/-- The empty store. -/
def Store.empty : Store := fun _ => none

/-- ZSET entries at a key (absent or non-ZSET keys read as empty). -/
def Store.zsetOf (st : Store) (k : String) : List (RStr × ℤ) :=
  match st k with
  | some (.zset l) => l
  | _ => []

/-- String value at a key (Redis `GET`; absent or non-string keys read as `None`). -/
def Store.getStr (st : Store) (k : String) : Option RStr :=
  match st k with
  | some (.str s) => some s
  | _ => none

/-- Write a ZSET at a key; Redis deletes a ZSET key that becomes empty. -/
def Store.setZ (st : Store) (k : String) (l : List (RStr × ℤ)) : Store :=
  fun k2 => if k2 = k then (if l = [] then none else some (.zset l)) else st k2

/-- Write a string value at a key (`SETEX`; the TTL is not part of the state). -/
def Store.setStr (st : Store) (k : String) (s : RStr) : Store :=
  fun k2 => if k2 = k then some (.str s) else st k2

/-- `ZREMRANGEBYSCORE key -inf cut`: removes every member with score ≤ `cut`
(the Redis `max` bound is inclusive). -/
def zremUpTo (cut : ℤ) (l : List (RStr × ℤ)) : List (RStr × ℤ) :=
  l.filter (fun e => decide (cut < e.2))

/-- `ZADD key {m: s}`: if the member exists its score is updated, otherwise
the member is added. -/
def zaddEntry (m : RStr) (s : ℤ) (l : List (RStr × ℤ)) : List (RStr × ℤ) :=
  if l.any (fun e => e.1 = m) then l.map (fun e => if e.1 = m then (m, s) else e)
  else l ++ [(m, s)]

/-- `ZSCORE`: the score of a member, when present. -/
def zscore (l : List (RStr × ℤ)) (m : RStr) : Option ℤ :=
  (l.find? (fun e => e.1 = m)).map (fun e => e.2)

/-- Stable insertion (by score) used to model Redis score ordering. -/
def zinsert (e : RStr × ℤ) : List (RStr × ℤ) → List (RStr × ℤ)
  | [] => [e]
  | f :: rest => if f.2 < e.2 then f :: zinsert e rest else e :: f :: rest

/-- Stable sort by ascending score (insertion sort). -/
def sortScore : List (RStr × ℤ) → List (RStr × ℤ)
  | [] => []
  | a :: l => zinsert a (sortScore l)

/-- message to device will expire in .. (`LINKHELPER_MESSAGE_EXPIRATION_SECS`). -/
def LINKHELPER_MESSAGE_EXPIRATION_SECS : ℤ := 60

/-- device is considered offline if does not call in .. (`LINKHELPER_PRESENCE_EXPIRATION_SECS`). -/
def LINKHELPER_PRESENCE_EXPIRATION_SECS : ℤ := 10

/-- `redis__presence_prefix` from the source: the per-client presence ZSET key. -/
def redis__presence_key (client_ip : String) : String :=
  "printer_discovery:" ++ client_ip ++ ":presence"

/-- `redis__device_info_prefix` from the source: the per-device info snapshot key. -/
def redis__device_info_key (client_ip : String) (device_id : String) : String :=
  "printer_discovery:" ++ client_ip ++ ":device_info:" ++ device_id

/-- `redis__to_device_message_queue_prefix` from the source: the per-device mailbox ZSET key. -/
def redis__to_device_message_queue_key (client_ip : String) (device_id : String) : String :=
  "printer_discovery:" ++ client_ip ++ ":messages_to:" ++ device_id

/-- `redis__push_message_for_device`: one pipeline pruning members scored
≤ `cur_time - expiration_secs`, adding the serialized message with score
`cur_time`, and refreshing the key TTL (TTL not part of the state). -/
def redis__push_message_for_device (client_ip : String) (device_id : String)
    (message : DeviceMessage) (cur_time : ℤ) (expiration_secs : ℤ) (st : Store) : Store :=
  let t := cur_time
  let raw := message.to_json
  let key := redis__to_device_message_queue_key client_ip device_id
  st.setZ key (zaddEntry raw t (zremUpTo (t - expiration_secs) (st.zsetOf key)))

/-- `parseMessages`: the decode loop after `zpopmin`; an exception from
`DeviceMessage.from_json` aborts the whole call (the `if msg is not None`
guard is unreachable dead code, `from_json` never returns `None`). -/
def parseMessages : List (RStr × ℤ) → Except PyErr (List DeviceMessage)
  | [] => .ok []
  | (raw, _) :: rest =>
      match DeviceMessage.from_json raw with
      | .error e => .error e
      | .ok msg =>
          match parseMessages rest with
          | .error e => .error e
          | .ok more => .ok (msg :: more)

/-- `redis__pull_messages_for_device`: one pipeline pruning members scored
≤ `cur_time - expiration_secs` then `ZPOPMIN key message_count`; then each
popped payload is decoded.  The Redis effects happen before the decode loop,
so the state component is final even when decoding raises. -/
def redis__pull_messages_for_device (client_ip : String) (device_id : String)
    (message_count : Nat) (cur_time : ℤ) (expiration_secs : ℤ) (st : Store) :
    Except PyErr (List DeviceMessage) × Store :=
  let t := cur_time
  let key := redis__to_device_message_queue_key client_ip device_id
  let l1 := zremUpTo (t - expiration_secs) (st.zsetOf key)
  let popped := (sortScore l1).take message_count
  let rest := (sortScore l1).drop message_count
  (parseMessages popped, st.setZ key rest)

/-- The ids surviving `listActiveDevices`' prune + `ZRANGEBYSCORE` phase
(`ret1[1]` in the source): members scored ≥ `cur_time - expiration_secs`,
ascending by score. -/
def activeDeviceIds (client_ip : String) (cur_time : ℤ) (expiration_secs : ℤ)
    (st : Store) : List RStr :=
  let t := cur_time
  let key := redis__presence_key client_ip
  let l1 := zremUpTo (t - expiration_secs) (st.zsetOf key)
  (((sortScore l1).filter (fun e => decide (t - expiration_secs ≤ e.2))).map (fun e => e.1))

/-- `parseInfos`: the decode loop over the fetched snapshots; `None` and
falsy (empty-string) snapshots are skipped, and a `DeviceInfo.from_json`
exception aborts the whole call. -/
def parseInfos : List (Option RStr) → Except PyErr (List DeviceInfo)
  | [] => .ok []
  | none :: rest => parseInfos rest
  | some raw :: rest =>
      if raw.isFalsy then parseInfos rest
      else
        match DeviceInfo.from_json raw with
        | .error e => .error e
        | .ok dinfo =>
            match parseInfos rest with
            | .error e => .error e
            | .ok more => .ok (dinfo :: more)

/-- `redis__active_devices_for_client_ip`: pipeline 1 prunes the presence
set and reads the surviving ids; pipeline 2 `GET`s each id's snapshot key;
then the snapshots are decoded (absent/falsy ones skipped). -/
def redis__active_devices_for_client_ip (client_ip : String) (cur_time : ℤ)
    (expiration_secs : ℤ) (st : Store) : Except PyErr (List DeviceInfo) × Store :=
  let t := cur_time
  let key := redis__presence_key client_ip
  let l1 := zremUpTo (t - expiration_secs) (st.zsetOf key)
  let st2 := st.setZ key l1
  let device_ids := activeDeviceIds client_ip t expiration_secs st
  let raws := device_ids.map (fun d => st2.getStr (redis__device_info_key client_ip d.pyStr))
  (parseInfos raws, st2)

/-- `redis__update_presence_for_device`: one pipeline `ZADD`ing the device id
with score `cur_time` into the presence set, refreshing the set's TTL, and
`SETEX`ing the serialized snapshot at the per-device info key. -/
def redis__update_presence_for_device (client_ip : String) (device_id : String)
    (device_info : DeviceInfo) (cur_time : ℤ) (expiration_secs : ℤ) (st : Store) : Store :=
  let t := cur_time
  let raw := device_info.to_json
  let key := redis__presence_key client_ip
  let info_key := redis__device_info_key client_ip device_id
  (st.setZ key (zaddEntry (.plain device_id) t (st.zsetOf key))).setStr info_key raw

/-- Decidable check that a fetched snapshot cannot make the decode loop of
`listActiveDevices` raise: it is absent, falsy, or decodes successfully. -/
def infoOkB : Option RStr → Bool
  | none => true
  | some v => v.isFalsy || (DeviceInfo.from_json v).toOption.isSome

/-- Stores reachable from the empty store through the four operations. -/
inductive Reachable : Store → Prop where
  | empty : Reachable Store.empty
  | push (ip id : String) (m : DeviceMessage) (t W : ℤ) {st : Store} :
      Reachable st → Reachable (redis__push_message_for_device ip id m t W st)
  | pull (ip id : String) (n : Nat) (t W : ℤ) {st : Store} :
      Reachable st → Reachable (redis__pull_messages_for_device ip id n t W st).2
  | update (ip id : String) (i : DeviceInfo) (t W : ℤ) {st : Store} :
      Reachable st → Reachable (redis__update_presence_for_device ip id i t W st)

/-! ### Basic facts about the ZSET operations -/

theorem mem_zremUpTo {cut : ℤ} {l : List (RStr × ℤ)} {e : RStr × ℤ} :
    e ∈ zremUpTo cut l ↔ e ∈ l ∧ cut < e.2 := by
  simp [zremUpTo, List.mem_filter]

theorem zremUpTo_eq_self {cut : ℤ} {l : List (RStr × ℤ)}
    (h : ∀ e ∈ l, cut < e.2) : zremUpTo cut l = l := by
  simp only [zremUpTo]
  exact List.filter_eq_self.mpr (fun e he => by simpa using h e he)

theorem mem_zaddEntry_self {m : RStr} {s : ℤ} {l : List (RStr × ℤ)} :
    (m, s) ∈ zaddEntry m s l := by
  unfold zaddEntry
  split
  case isTrue h =>
    obtain ⟨e, he, hm⟩ := List.any_eq_true.mp h
    refine List.mem_map.mpr ⟨e, he, ?_⟩
    simp at hm
    simp [hm]
  case isFalse h => simp

theorem mem_zaddEntry {m : RStr} {s : ℤ} {l : List (RStr × ℤ)} {e : RStr × ℤ}
    (he : e ∈ zaddEntry m s l) : e = (m, s) ∨ e ∈ l := by
  unfold zaddEntry at he
  split at he
  case isTrue h =>
    obtain ⟨f, hf, hfe⟩ := List.mem_map.mp he
    by_cases h2 : f.1 = m
    · simp [h2] at hfe; left; exact hfe.symm
    · simp [h2] at hfe; right; exact hfe ▸ hf
  case isFalse h =>
    rcases List.mem_append.mp he with h1 | h1
    · right; exact h1
    · left; simpa using h1

theorem zaddEntry_entry_eq {m : RStr} {s : ℤ} {l : List (RStr × ℤ)} {e : RStr × ℤ}
    (he : e ∈ zaddEntry m s l) (hfst : e.1 = m) : e = (m, s) := by
  unfold zaddEntry at he
  split at he
  case isTrue h =>
    obtain ⟨f, hf, hfe⟩ := List.mem_map.mp he
    by_cases h2 : f.1 = m
    · simp [h2] at hfe; exact hfe.symm
    · simp [h2] at hfe; exact absurd (hfe ▸ hfst) h2
  case isFalse h =>
    rcases List.mem_append.mp he with h1 | h1
    · exact absurd (List.any_eq_true.mpr ⟨e, h1, by simp [hfst]⟩) h
    · simpa using h1

theorem zaddEntry_cons_ne {m : RStr} {s : ℤ} {a : RStr × ℤ} {l : List (RStr × ℤ)}
    (ha : ¬ a.1 = m) : zaddEntry m s (a :: l) = a :: zaddEntry m s l := by
  unfold zaddEntry
  by_cases hl : l.any (fun e => decide (e.1 = m)) = true
  · simp [List.any_cons, ha, hl]
  · simp [List.any_cons, ha, hl]

theorem zscore_cons_ne {a : RStr × ℤ} {l : List (RStr × ℤ)} {m : RStr}
    (ha : ¬ a.1 = m) : zscore (a :: l) m = zscore l m := by
  simp [zscore, List.find?, ha]

theorem zscore_zaddEntry (m : RStr) (s : ℤ) (l : List (RStr × ℤ)) :
    zscore (zaddEntry m s l) m = some s := by
  induction l with
  | nil => simp [zaddEntry, zscore, List.find?]
  | cons a l ih =>
    by_cases ha : a.1 = m
    · have h : (a :: l).any (fun e => decide (e.1 = m)) = true :=
        List.any_eq_true.mpr ⟨a, by simp, by simp [ha]⟩
      unfold zaddEntry
      rw [if_pos h]
      simp [ha, zscore, List.find?]
    · rw [zaddEntry_cons_ne ha, zscore_cons_ne ha]
      exact ih

theorem zaddEntry_idem (m : RStr) (s : ℤ) (l : List (RStr × ℤ)) :
    zaddEntry m s (zaddEntry m s l) = zaddEntry m s l := by
  have h1 : (zaddEntry m s l).any (fun e => decide (e.1 = m)) = true :=
    List.any_eq_true.mpr ⟨(m, s), mem_zaddEntry_self, by simp⟩
  conv_lhs => rw [zaddEntry]
  rw [if_pos h1]
  have h2 : ∀ e ∈ zaddEntry m s l, (if e.1 = m then (m, s) else e) = e := by
    intro e he
    by_cases h3 : e.1 = m
    · rw [if_pos h3, zaddEntry_entry_eq he h3]
    · rw [if_neg h3]
  calc (zaddEntry m s l).map (fun e => if e.1 = m then (m, s) else e)
      = (zaddEntry m s l).map id := List.map_congr_left (by simpa using h2)
    _ = zaddEntry m s l := List.map_id _

theorem zinsert_perm (e : RStr × ℤ) (l : List (RStr × ℤ)) :
    (zinsert e l).Perm (e :: l) := by
  induction l with
  | nil => simp [zinsert]
  | cons f rest ih =>
    unfold zinsert
    split
    · exact ((ih.cons f).trans (List.Perm.swap e f rest))
    · exact List.Perm.refl _

theorem sortScore_perm (l : List (RStr × ℤ)) : (sortScore l).Perm l := by
  induction l with
  | nil => simp [sortScore]
  | cons a rest ih => exact (zinsert_perm a (sortScore rest)).trans (ih.cons a)

theorem mem_sortScore {l : List (RStr × ℤ)} {e : RStr × ℤ} :
    e ∈ sortScore l ↔ e ∈ l :=
  (sortScore_perm l).mem_iff

/-! ### Basic facts about the store -/

theorem Store.setZ_apply_self (st : Store) (k : String) (l : List (RStr × ℤ)) :
    (st.setZ k l) k = if l = [] then none else some (.zset l) := by
  simp [Store.setZ]

theorem Store.setZ_apply_ne (st : Store) (k k2 : String) (l : List (RStr × ℤ))
    (h : ¬ k2 = k) : (st.setZ k l) k2 = st k2 := by
  simp [Store.setZ, h]

theorem Store.setStr_apply_ne (st : Store) (k k2 : String) (s : RStr)
    (h : ¬ k2 = k) : (st.setStr k s) k2 = st k2 := by
  simp [Store.setStr, h]

theorem Store.zsetOf_setZ_self (st : Store) (k : String) (l : List (RStr × ℤ)) :
    (st.setZ k l).zsetOf k = l := by
  by_cases h : l = []
  · simp [Store.zsetOf, Store.setZ, h]
  · simp [Store.zsetOf, Store.setZ, h]

theorem Store.zsetOf_setZ_ne (st : Store) (k k2 : String) (l : List (RStr × ℤ))
    (h : ¬ k2 = k) : (st.setZ k l).zsetOf k2 = st.zsetOf k2 := by
  simp [Store.zsetOf, Store.setZ, h]

theorem Store.zsetOf_setStr_ne (st : Store) (k k2 : String) (s : RStr)
    (h : ¬ k2 = k) : (st.setStr k s).zsetOf k2 = st.zsetOf k2 := by
  simp [Store.zsetOf, Store.setStr, h]

theorem Store.getStr_setStr_self (st : Store) (k : String) (s : RStr) :
    (st.setStr k s).getStr k = some s := by
  simp [Store.getStr, Store.setStr]

theorem Store.getStr_setStr_ne (st : Store) (k k2 : String) (s : RStr)
    (h : ¬ k2 = k) : (st.setStr k s).getStr k2 = st.getStr k2 := by
  simp [Store.getStr, Store.setStr, h]

theorem Store.getStr_setZ_ne (st : Store) (k k2 : String) (l : List (RStr × ℤ))
    (h : ¬ k2 = k) : (st.setZ k l).getStr k2 = st.getStr k2 := by
  simp [Store.getStr, Store.setZ, h]

/-! ### Distinctness of the three key families -/

theorem presence_key_ne_device_info_key (ip d : String) :
    ¬ redis__presence_key ip = redis__device_info_key ip d := by
  intro h
  have hl := congrArg String.length h
  rw [redis__presence_key, redis__device_info_key] at hl
  simp only [String.length_append] at hl
  have e1 : (":presence" : String).length = 9 := rfl
  have e2 : (":device_info:" : String).length = 13 := rfl
  rw [e1, e2] at hl
  omega

theorem split_at_colon : ∀ {a b c d : List Char}, ':' ∉ a → ':' ∉ b →
    a ++ ':' :: c = b ++ ':' :: d → a = b ∧ c = d := by
  intro a
  induction a with
  | nil =>
    intro b c d _ hb h
    cases b with
    | nil => simp at h; exact ⟨rfl, h⟩
    | cons y b2 =>
      simp only [List.nil_append, List.cons_append] at h
      injection h with h1 _
      exact absurd (h1 ▸ List.mem_cons_self y b2) hb
  | cons x a2 ih =>
    intro b c d ha hb h
    cases b with
    | nil =>
      simp only [List.nil_append, List.cons_append] at h
      injection h with h1 _
      exact absurd (h1 ▸ List.mem_cons_self x a2) ha
    | cons y b2 =>
      simp only [List.cons_append] at h
      injection h with h1 h2
      have ha2 : ':' ∉ a2 := fun hm => ha (List.mem_cons_of_mem x hm)
      have hb2 : ':' ∉ b2 := fun hm => hb (List.mem_cons_of_mem y hm)
      obtain ⟨hab, hcd⟩ := ih ha2 hb2 h2
      exact ⟨by rw [h1, hab], hcd⟩

theorem presence_key_ne_device_info_key_cf {ip ip2 d2 : String}
    (h1 : ':' ∉ ip.data) (h2 : ':' ∉ ip2.data) :
    ¬ redis__presence_key ip = redis__device_info_key ip2 d2 := by
  intro h
  have hd := congrArg String.data h
  rw [redis__presence_key, redis__device_info_key] at hd
  simp only [String.data_append, List.append_assoc, List.cons_append, List.nil_append] at hd
  injection hd with hc hd
  injection hd with hc hd
  injection hd with hc hd
  injection hd with hc hd
  injection hd with hc hd
  injection hd with hc hd
  injection hd with hc hd
  injection hd with hc hd
  injection hd with hc hd
  injection hd with hc hd
  injection hd with hc hd
  injection hd with hc hd
  injection hd with hc hd
  injection hd with hc hd
  injection hd with hc hd
  injection hd with hc hd
  injection hd with hc hd
  injection hd with hc hd
  obtain ⟨-, h3⟩ := split_at_colon h1 h2 hd
  injection h3 with h4 h5
  exact absurd h4 (by decide)

theorem presence_key_ne_msg_key_cf {ip ip2 d2 : String}
    (h1 : ':' ∉ ip.data) (h2 : ':' ∉ ip2.data) :
    ¬ redis__presence_key ip = redis__to_device_message_queue_key ip2 d2 := by
  intro h
  have hd := congrArg String.data h
  rw [redis__presence_key, redis__to_device_message_queue_key] at hd
  simp only [String.data_append, List.append_assoc, List.cons_append, List.nil_append] at hd
  injection hd with hc hd
  injection hd with hc hd
  injection hd with hc hd
  injection hd with hc hd
  injection hd with hc hd
  injection hd with hc hd
  injection hd with hc hd
  injection hd with hc hd
  injection hd with hc hd
  injection hd with hc hd
  injection hd with hc hd
  injection hd with hc hd
  injection hd with hc hd
  injection hd with hc hd
  injection hd with hc hd
  injection hd with hc hd
  injection hd with hc hd
  injection hd with hc hd
  obtain ⟨-, h3⟩ := split_at_colon h1 h2 hd
  injection h3 with h4 h5
  exact absurd h4 (by decide)

theorem device_info_key_ne_msg_key_cf {ip d ip2 d2 : String}
    (h1 : ':' ∉ ip.data) (h2 : ':' ∉ ip2.data) :
    ¬ redis__device_info_key ip d = redis__to_device_message_queue_key ip2 d2 := by
  intro h
  have hd := congrArg String.data h
  rw [redis__device_info_key, redis__to_device_message_queue_key] at hd
  simp only [String.data_append, List.append_assoc, List.cons_append, List.nil_append] at hd
  injection hd with hc hd
  injection hd with hc hd
  injection hd with hc hd
  injection hd with hc hd
  injection hd with hc hd
  injection hd with hc hd
  injection hd with hc hd
  injection hd with hc hd
  injection hd with hc hd
  injection hd with hc hd
  injection hd with hc hd
  injection hd with hc hd
  injection hd with hc hd
  injection hd with hc hd
  injection hd with hc hd
  injection hd with hc hd
  injection hd with hc hd
  injection hd with hc hd
  obtain ⟨-, h3⟩ := split_at_colon h1 h2 hd
  injection h3 with h4 h5
  exact absurd h4 (by decide)

/-! ### Unfolding equations for the four operations -/

theorem push_eq (ip id : String) (m : DeviceMessage) (t W : ℤ) (st : Store) :
    redis__push_message_for_device ip id m t W st =
      st.setZ (redis__to_device_message_queue_key ip id)
        (zaddEntry m.to_json t
          (zremUpTo (t - W) (st.zsetOf (redis__to_device_message_queue_key ip id)))) := rfl

theorem pull_state_eq (ip id : String) (n : Nat) (t W : ℤ) (st : Store) :
    (redis__pull_messages_for_device ip id n t W st).2 =
      st.setZ (redis__to_device_message_queue_key ip id)
        ((sortScore (zremUpTo (t - W)
          (st.zsetOf (redis__to_device_message_queue_key ip id)))).drop n) := rfl

theorem pull_result_eq (ip id : String) (n : Nat) (t W : ℤ) (st : Store) :
    (redis__pull_messages_for_device ip id n t W st).1 =
      parseMessages ((sortScore (zremUpTo (t - W)
        (st.zsetOf (redis__to_device_message_queue_key ip id)))).take n) := rfl

theorem update_eq (ip id : String) (i : DeviceInfo) (t W : ℤ) (st : Store) :
    redis__update_presence_for_device ip id i t W st =
      (st.setZ (redis__presence_key ip)
        (zaddEntry (.plain id) t (st.zsetOf (redis__presence_key ip)))).setStr
          (redis__device_info_key ip id) i.to_json := rfl

theorem active_result_eq (ip : String) (t W : ℤ) (st : Store) :
    (redis__active_devices_for_client_ip ip t W st).1 =
      parseInfos ((activeDeviceIds ip t W st).map (fun d =>
        (st.setZ (redis__presence_key ip)
          (zremUpTo (t - W) (st.zsetOf (redis__presence_key ip)))).getStr
            (redis__device_info_key ip d.pyStr))) := rfl

/-- Claim C6: an `updatePresence` call whose `now` is older than the score
already recorded for the same device still overwrites the recorded presence
score with its own `now` (last write by call order, not by score value). -/
theorem claim_C6 (st : Store) (client_ip device_id : String) (info : DeviceInfo)
    (now W s : ℤ)
    (h1 : zscore (st.zsetOf (redis__presence_key client_ip)) (.plain device_id) = some s)
    (h2 : now < s) :
    zscore ((redis__update_presence_for_device client_ip device_id info now W st).zsetOf
      (redis__presence_key client_ip)) (.plain device_id) = some now := by
  rw [update_eq,
      Store.zsetOf_setStr_ne _ _ _ _ (presence_key_ne_device_info_key client_ip device_id),
      Store.zsetOf_setZ_self]
  exact zscore_zaddEntry _ _ _

theorem claim_C6_witness :
    zscore ((redis__update_presence_for_device "ip1" "abcdefghabcdefghabcdefghabcdefgh"
      (DeviceInfo.mk "abcdefghabcdefghabcdefghabcdefgh" "host" "" "" "" "" "") 5 10
      (Store.empty.setZ (redis__presence_key "ip1")
        [(.plain "abcdefghabcdefghabcdefghabcdefgh", 50)])).zsetOf
      (redis__presence_key "ip1")) (.plain "abcdefghabcdefghabcdefghabcdefgh") = some 5 :=
  claim_C6 _ "ip1" "abcdefghabcdefghabcdefghabcdefgh" _ 5 10 50 (by decide) (by decide)

/-- Claim C8: the write operations are idempotent under repeated identical
arguments: a second identical `updatePresence` (resp. `pushMessage`, for a
positive expiration window) leaves the store exactly as after the first. -/
theorem claim_C8 (st : Store) (client_ip device_id : String) (info : DeviceInfo)
    (message : DeviceMessage) (now W : ℤ) (hW : 0 < W) :
    redis__update_presence_for_device client_ip device_id info now W
        (redis__update_presence_for_device client_ip device_id info now W st) =
      redis__update_presence_for_device client_ip device_id info now W st ∧
    redis__push_message_for_device client_ip device_id message now W
        (redis__push_message_for_device client_ip device_id message now W st) =
      redis__push_message_for_device client_ip device_id message now W st := by
  constructor
  · have hne := presence_key_ne_device_info_key client_ip device_id
    rw [update_eq, update_eq,
        Store.zsetOf_setStr_ne _ _ _ _ hne, Store.zsetOf_setZ_self, zaddEntry_idem]
    funext k
    by_cases hk1 : k = redis__device_info_key client_ip device_id
    · simp [Store.setStr, Store.setZ, hk1]
    · by_cases hk2 : k = redis__presence_key client_ip
      · simp [Store.setStr, Store.setZ, hk1, hk2]
      · simp [Store.setStr, Store.setZ, hk1, hk2]
  · have hall : ∀ e ∈ zaddEntry message.to_json now
        (zremUpTo (now - W) (st.zsetOf (redis__to_device_message_queue_key client_ip device_id))),
        now - W < e.2 := by
      intro e he
      rcases mem_zaddEntry he with h | h
      · rw [h]; linarith
      · exact (mem_zremUpTo.mp h).2
    rw [push_eq, push_eq, Store.zsetOf_setZ_self, zremUpTo_eq_self hall, zaddEntry_idem]
    funext k
    by_cases hk : k = redis__to_device_message_queue_key client_ip device_id
    · simp [Store.setZ, hk]
    · simp [Store.setZ, hk]

theorem claim_C8_witness :
    redis__update_presence_for_device "ip1" "abcdefghabcdefghabcdefghabcdefgh"
        (DeviceInfo.mk "abcdefghabcdefghabcdefghabcdefgh" "host" "" "" "" "" "") 5 10
        (redis__update_presence_for_device "ip1" "abcdefghabcdefghabcdefghabcdefgh"
          (DeviceInfo.mk "abcdefghabcdefghabcdefghabcdefgh" "host" "" "" "" "" "") 5 10 Store.empty) =
      redis__update_presence_for_device "ip1" "abcdefghabcdefghabcdefghabcdefgh"
        (DeviceInfo.mk "abcdefghabcdefghabcdefghabcdefgh" "host" "" "" "" "" "") 5 10 Store.empty ∧
    redis__push_message_for_device "ip1" "abcdefghabcdefghabcdefghabcdefgh"
        (DeviceMessage.mk "abcdefghabcdefghabcdefghabcdefgh" "cmd" [("x", "1")]) 5 10
        (redis__push_message_for_device "ip1" "abcdefghabcdefghabcdefghabcdefgh"
          (DeviceMessage.mk "abcdefghabcdefghabcdefghabcdefgh" "cmd" [("x", "1")]) 5 10 Store.empty) =
      redis__push_message_for_device "ip1" "abcdefghabcdefghabcdefghabcdefgh"
        (DeviceMessage.mk "abcdefghabcdefghabcdefghabcdefgh" "cmd" [("x", "1")]) 5 10 Store.empty :=
  claim_C8 Store.empty "ip1" "abcdefghabcdefghabcdefghabcdefgh"
    (DeviceInfo.mk "abcdefghabcdefghabcdefghabcdefgh" "host" "" "" "" "" "")
    (DeviceMessage.mk "abcdefghabcdefghabcdefghabcdefgh" "cmd" [("x", "1")]) 5 10 (by decide)

/-- Claim C9 counterexample: the key families are NOT pairwise distinct for
all arguments.  With the crafted client address `"A:messages_to"`, the
presence key coincides with the mailbox key of client `"A"`, device
`"presence"`, so an `updatePresence` call mutates that mailbox ZSET. -/
theorem claim_C9_counterexample :
    redis__presence_key "A:messages_to" = redis__to_device_message_queue_key "A" "presence" ∧
    ¬ (redis__update_presence_for_device "A:messages_to" "abcdefghabcdefghabcdefghabcdefgh"
        (DeviceInfo.mk "abcdefghabcdefghabcdefghabcdefgh" "host" "" "" "" "" "") 5 10
        Store.empty).zsetOf (redis__to_device_message_queue_key "A" "presence") =
      Store.empty.zsetOf (redis__to_device_message_queue_key "A" "presence") := by
  constructor
  · rfl
  · decide

/-- Claim C9 (amended): provided the client addresses contain no `':'`
character, the three key families are pairwise distinct, and presence state
and mailbox state are disjoint: `pushMessage`/`pullMessages` leave the
presence set and every device-info key unchanged, and `updatePresence`
leaves every mailbox queue unchanged. -/
theorem claim_C9_amended (st : Store) (ip id ip2 id2 : String) (m : DeviceMessage)
    (i : DeviceInfo) (n : Nat) (t W : ℤ)
    (h1 : ':' ∉ ip.data) (h2 : ':' ∉ ip2.data) :
    (¬ redis__presence_key ip = redis__device_info_key ip2 id2 ∧
     ¬ redis__presence_key ip = redis__to_device_message_queue_key ip2 id2 ∧
     ¬ redis__device_info_key ip id = redis__to_device_message_queue_key ip2 id2) ∧
    (redis__push_message_for_device ip id m t W st) (redis__presence_key ip2) =
      st (redis__presence_key ip2) ∧
    (redis__push_message_for_device ip id m t W st) (redis__device_info_key ip2 id2) =
      st (redis__device_info_key ip2 id2) ∧
    (redis__pull_messages_for_device ip id n t W st).2 (redis__presence_key ip2) =
      st (redis__presence_key ip2) ∧
    (redis__pull_messages_for_device ip id n t W st).2 (redis__device_info_key ip2 id2) =
      st (redis__device_info_key ip2 id2) ∧
    (redis__update_presence_for_device ip id i t W st)
        (redis__to_device_message_queue_key ip2 id2) =
      st (redis__to_device_message_queue_key ip2 id2) := by
  refine ⟨⟨presence_key_ne_device_info_key_cf h1 h2, presence_key_ne_msg_key_cf h1 h2,
    device_info_key_ne_msg_key_cf h1 h2⟩, ?_, ?_, ?_, ?_, ?_⟩
  · rw [push_eq]
    exact Store.setZ_apply_ne _ _ _ _ (presence_key_ne_msg_key_cf h2 h1)
  · rw [push_eq]
    exact Store.setZ_apply_ne _ _ _ _ (device_info_key_ne_msg_key_cf h2 h1)
  · rw [pull_state_eq]
    exact Store.setZ_apply_ne _ _ _ _ (presence_key_ne_msg_key_cf h2 h1)
  · rw [pull_state_eq]
    exact Store.setZ_apply_ne _ _ _ _ (device_info_key_ne_msg_key_cf h2 h1)
  · rw [update_eq]
    rw [Store.setStr_apply_ne _ _ _ _
      (fun hh => device_info_key_ne_msg_key_cf h1 h2 hh.symm)]
    exact Store.setZ_apply_ne _ _ _ _
      (fun hh => presence_key_ne_msg_key_cf h1 h2 hh.symm)

theorem claim_C9_amended_witness :
    (¬ redis__presence_key "ip1" = redis__device_info_key "ip2" "dev2" ∧
     ¬ redis__presence_key "ip1" = redis__to_device_message_queue_key "ip2" "dev2" ∧
     ¬ redis__device_info_key "ip1" "dev1" = redis__to_device_message_queue_key "ip2" "dev2") ∧
    (redis__push_message_for_device "ip1" "dev1"
        (DeviceMessage.mk "abcdefghabcdefghabcdefghabcdefgh" "cmd" [("x", "1")]) 5 60 Store.empty)
        (redis__presence_key "ip2") = Store.empty (redis__presence_key "ip2") ∧
    (redis__push_message_for_device "ip1" "dev1"
        (DeviceMessage.mk "abcdefghabcdefghabcdefghabcdefgh" "cmd" [("x", "1")]) 5 60 Store.empty)
        (redis__device_info_key "ip2" "dev2") = Store.empty (redis__device_info_key "ip2" "dev2") ∧
    (redis__pull_messages_for_device "ip1" "dev1" 3 5 60 Store.empty).2
        (redis__presence_key "ip2") = Store.empty (redis__presence_key "ip2") ∧
    (redis__pull_messages_for_device "ip1" "dev1" 3 5 60 Store.empty).2
        (redis__device_info_key "ip2" "dev2") = Store.empty (redis__device_info_key "ip2" "dev2") ∧
    (redis__update_presence_for_device "ip1" "dev1"
        (DeviceInfo.mk "abcdefghabcdefghabcdefghabcdefgh" "host" "" "" "" "" "") 5 10 Store.empty)
        (redis__to_device_message_queue_key "ip2" "dev2") =
      Store.empty (redis__to_device_message_queue_key "ip2" "dev2") :=
  claim_C9_amended Store.empty "ip1" "dev1" "ip2" "dev2"
    (DeviceMessage.mk "abcdefghabcdefghabcdefghabcdefgh" "cmd" [("x", "1")])
    (DeviceInfo.mk "abcdefghabcdefghabcdefghabcdefgh" "host" "" "" "" "" "") 3 5 60
    (by decide) (by decide)

/-! ### Decoding facts -/

theorem msg_from_json_ok_iff {r : RStr} {m : DeviceMessage} :
    DeviceMessage.from_json r = .ok m ↔ r = .msgJson m ∧ msgValidB m = true := by
  cases r with
  | plain s => simp [DeviceMessage.from_json]
  | infoJson i => simp [DeviceMessage.from_json]
  | msgJson m2 =>
    by_cases h : msgValidB m2 = true
    · constructor
      · intro hh
        simp [DeviceMessage.from_json, h] at hh
        subst hh
        exact ⟨rfl, h⟩
      · rintro ⟨hh, -⟩
        injection hh with hh2
        subst hh2
        simp [DeviceMessage.from_json, h]
    · simp [DeviceMessage.from_json, h]
      intro hh
      subst hh
      simpa using h

theorem info_from_json_ok_iff {r : RStr} {i : DeviceInfo} :
    DeviceInfo.from_json r = .ok i ↔ r = .infoJson i ∧ infoValidB i = true := by
  cases r with
  | plain s => simp [DeviceInfo.from_json]
  | msgJson m => simp [DeviceInfo.from_json]
  | infoJson i2 =>
    by_cases h : infoValidB i2 = true
    · constructor
      · intro hh
        simp [DeviceInfo.from_json, h] at hh
        subst hh
        exact ⟨rfl, h⟩
      · rintro ⟨hh, -⟩
        injection hh with hh2
        subst hh2
        simp [DeviceInfo.from_json, h]
    · simp [DeviceInfo.from_json, h]
      intro hh
      subst hh
      simpa using h

theorem parseMessages_mem {l : List (RStr × ℤ)} {msgs : List DeviceMessage}
    {m : DeviceMessage} (hok : parseMessages l = .ok msgs) (hm : m ∈ msgs) :
    ∃ e ∈ l, DeviceMessage.from_json e.1 = .ok m := by
  induction l generalizing msgs with
  | nil =>
    simp [parseMessages] at hok
    subst hok
    simp at hm
  | cons e rest ih =>
    obtain ⟨raw, sc⟩ := e
    rw [parseMessages] at hok
    cases hraw : DeviceMessage.from_json raw with
    | error err => rw [hraw] at hok; simp at hok
    | ok msg =>
      rw [hraw] at hok
      cases hrest : parseMessages rest with
      | error err => rw [hrest] at hok; simp at hok
      | ok more =>
        rw [hrest] at hok
        simp only [Except.ok.injEq] at hok
        subst hok
        rcases List.mem_cons.mp hm with h | h
        · exact ⟨(raw, sc), List.mem_cons_self _ _, h ▸ hraw⟩
        · obtain ⟨e2, he2, hfj⟩ := ih hrest h
          exact ⟨e2, List.mem_cons_of_mem _ he2, hfj⟩

theorem parseMessages_length {l : List (RStr × ℤ)} {msgs : List DeviceMessage}
    (hok : parseMessages l = .ok msgs) : msgs.length = l.length := by
  induction l generalizing msgs with
  | nil => simp [parseMessages] at hok; subst hok; rfl
  | cons e rest ih =>
    obtain ⟨raw, sc⟩ := e
    rw [parseMessages] at hok
    cases hraw : DeviceMessage.from_json raw with
    | error err => rw [hraw] at hok; simp at hok
    | ok msg =>
      rw [hraw] at hok
      cases hrest : parseMessages rest with
      | error err => rw [hrest] at hok; simp at hok
      | ok more =>
        rw [hrest] at hok
        simp only [Except.ok.injEq] at hok
        subst hok
        simp [ih hrest]

theorem pull_mem_score {ip id : String} {n : Nat} {st : Store} {now W : ℤ}
    {msgs : List DeviceMessage} {m : DeviceMessage}
    (hok : (redis__pull_messages_for_device ip id n now W st).1 = .ok msgs)
    (hm : m ∈ msgs) :
    ∃ s, (RStr.msgJson m, s) ∈ st.zsetOf (redis__to_device_message_queue_key ip id) ∧
      now - W < s := by
  rw [pull_result_eq] at hok
  obtain ⟨e, he, hfj⟩ := parseMessages_mem hok hm
  obtain ⟨hraw, -⟩ := msg_from_json_ok_iff.mp hfj
  have he2 : e ∈ zremUpTo (now - W)
      (st.zsetOf (redis__to_device_message_queue_key ip id)) :=
    mem_sortScore.mp (List.mem_of_mem_take he)
  obtain ⟨hmem, hsc⟩ := mem_zremUpTo.mp he2
  exact ⟨e.2, by rw [← hraw]; exact hmem, hsc⟩

/-- Claim C1 (code-bug evidence): with a mailbox holding one well-formed
message and one member that is not a parseable serialized `DeviceMessage`,
`pullMessages` raises (a `json.loads` error propagates out of
`DeviceMessage.from_json`) instead of returning the well-formed messages;
the `if msg is not None` guard meant to skip malformed members is dead code
because `from_json` raises rather than returning `None`. -/
theorem claim_C1_bug :
    (redis__pull_messages_for_device "ip1" "abcdefghabcdefghabcdefghabcdefgh" 3 5 60
      (Store.empty.setZ
        (redis__to_device_message_queue_key "ip1" "abcdefghabcdefghabcdefghabcdefgh")
        [(.msgJson (DeviceMessage.mk "abcdefghabcdefghabcdefghabcdefgh" "cmd" [("x", "1")]), 4),
         (.plain "not-json", 5)])).1 = .error .jsonDecode := by
  decide

/-- Claim C2: no pulled message was enqueued (scored) more than
`messageWindow` seconds before the pull's `now`; in particular a message
pushed at `tp` is never returned by a pull at `now > tp + messageWindow`. -/
theorem claim_C2 (ip id : String) (n : Nat) (st : Store) (m : DeviceMessage)
    (now tp W : ℤ) :
    (∀ msgs, (redis__pull_messages_for_device ip id n now W st).1 = .ok msgs →
      m ∈ msgs →
      ∃ s, (RStr.msgJson m, s) ∈ st.zsetOf (redis__to_device_message_queue_key ip id) ∧
        now - W < s) ∧
    (tp + W < now →
      ∀ msgs, (redis__pull_messages_for_device ip id n now W
          (redis__push_message_for_device ip id m tp W st)).1 = .ok msgs →
        m ∉ msgs) := by
  constructor
  · intro msgs hok hm
    exact pull_mem_score hok hm
  · intro hlt msgs hok hm
    obtain ⟨s, hmem, hs⟩ := pull_mem_score hok hm
    rw [push_eq, Store.zsetOf_setZ_self] at hmem
    have heq := zaddEntry_entry_eq hmem rfl
    have hsp := congrArg Prod.snd heq
    simp only at hsp
    rw [hsp] at hs
    linarith

theorem claim_C2_witness :
    (∃ s, (RStr.msgJson (DeviceMessage.mk "abcdefghabcdefghabcdefghabcdefgh" "cmd" [("x", "1")]), s) ∈
        (Store.empty.setZ
          (redis__to_device_message_queue_key "ip1" "abcdefghabcdefghabcdefghabcdefgh")
          [(.msgJson (DeviceMessage.mk "abcdefghabcdefghabcdefghabcdefgh" "cmd" [("x", "1")]), 4)]).zsetOf
          (redis__to_device_message_queue_key "ip1" "abcdefghabcdefghabcdefghabcdefgh") ∧
      (5 : ℤ) - 60 < s) ∧
    (DeviceMessage.mk "abcdefghabcdefghabcdefghabcdefgh" "cmd" [("x", "1")]) ∉
      ([] : List DeviceMessage) :=
  ⟨(claim_C2 "ip1" "abcdefghabcdefghabcdefghabcdefgh" 3
      (Store.empty.setZ
        (redis__to_device_message_queue_key "ip1" "abcdefghabcdefghabcdefghabcdefgh")
        [(.msgJson (DeviceMessage.mk "abcdefghabcdefghabcdefghabcdefgh" "cmd" [("x", "1")]), 4)])
      (DeviceMessage.mk "abcdefghabcdefghabcdefghabcdefgh" "cmd" [("x", "1")]) 5 0 60).1
      [DeviceMessage.mk "abcdefghabcdefghabcdefghabcdefgh" "cmd" [("x", "1")]]
      (by decide) (by decide),
   (claim_C2 "ip1" "abcdefghabcdefghabcdefghabcdefgh" 3 Store.empty
      (DeviceMessage.mk "abcdefghabcdefghabcdefghabcdefgh" "cmd" [("x", "1")]) 61 0 60).2
      (by norm_num) [] (by decide)⟩

/-- Claim C4: three messages enqueued at `t1 < t2 < t3` (all within the
message window of the pull times) are drained FIFO by enqueue time: a pull
with `maxCount = 2` removes and returns exactly the `t1` and `t2` messages
in that order, a subsequent pull returns the `t3` message, and in general a
pull never returns more than `maxCount` entries. -/
theorem claim_C4 (ip id : String) (st : Store) (m1 m2 m3 : DeviceMessage)
    (t1 t2 t3 tp tp2 W : ℤ)
    (h12 : t1 < t2) (h23 : t2 < t3) (h3p : t3 ≤ tp) (hpp : tp ≤ tp2)
    (hwin : tp2 - W < t1)
    (hv1 : msgValidB m1 = true) (hv2 : msgValidB m2 = true) (hv3 : msgValidB m3 = true)
    (hne12 : ¬ m1 = m2) (hne13 : ¬ m1 = m3) (hne23 : ¬ m2 = m3)
    (hempty : st.zsetOf (redis__to_device_message_queue_key ip id) = []) :
    (redis__pull_messages_for_device ip id 2 tp W
        (redis__push_message_for_device ip id m3 t3 W
          (redis__push_message_for_device ip id m2 t2 W
            (redis__push_message_for_device ip id m1 t1 W st)))).1 = .ok [m1, m2] ∧
    (redis__pull_messages_for_device ip id 2 tp2 W
        (redis__pull_messages_for_device ip id 2 tp W
          (redis__push_message_for_device ip id m3 t3 W
            (redis__push_message_for_device ip id m2 t2 W
              (redis__push_message_for_device ip id m1 t1 W st)))).2).1 = .ok [m3] ∧
    (∀ (n : Nat) (t : ℤ) (st2 : Store) (msgs : List DeviceMessage),
      (redis__pull_messages_for_device ip id n t W st2).1 = .ok msgs →
        msgs.length ≤ n) := by
  have e1 : (redis__push_message_for_device ip id m1 t1 W st).zsetOf
      (redis__to_device_message_queue_key ip id) = [(m1.to_json, t1)] := by
    rw [push_eq, Store.zsetOf_setZ_self, hempty]
    simp [zremUpTo, zaddEntry]
  have e2 : (redis__push_message_for_device ip id m2 t2 W
      (redis__push_message_for_device ip id m1 t1 W st)).zsetOf
      (redis__to_device_message_queue_key ip id) = [(m1.to_json, t1), (m2.to_json, t2)] := by
    rw [push_eq, Store.zsetOf_setZ_self, e1]
    simp [zremUpTo, zaddEntry, DeviceMessage.to_json, hne12,
      show t2 - W < t1 by linarith]
  have e3 : (redis__push_message_for_device ip id m3 t3 W
      (redis__push_message_for_device ip id m2 t2 W
        (redis__push_message_for_device ip id m1 t1 W st))).zsetOf
      (redis__to_device_message_queue_key ip id) =
      [(m1.to_json, t1), (m2.to_json, t2), (m3.to_json, t3)] := by
    rw [push_eq, Store.zsetOf_setZ_self, e2]
    simp [zremUpTo, zaddEntry, DeviceMessage.to_json, hne13, hne23,
      show t3 - W < t1 by linarith, show t3 - W < t2 by linarith]
  have hprune : zremUpTo (tp - W) [(m1.to_json, t1), (m2.to_json, t2), (m3.to_json, t3)] =
      [(m1.to_json, t1), (m2.to_json, t2), (m3.to_json, t3)] := by
    simp [zremUpTo, show tp - W < t1 by linarith, show tp - W < t2 by linarith,
      show tp - W < t3 by linarith]
  have hsorted : sortScore [(m1.to_json, t1), (m2.to_json, t2), (m3.to_json, t3)] =
      [(m1.to_json, t1), (m2.to_json, t2), (m3.to_json, t3)] := by
    simp [sortScore, zinsert, show ¬ t3 < t2 by linarith, show ¬ t2 < t1 by linarith]
  refine ⟨?_, ?_, ?_⟩
  · rw [pull_result_eq, e3, hprune, hsorted]
    simp [parseMessages, DeviceMessage.from_json, DeviceMessage.to_json, hv1, hv2]
  · rw [pull_result_eq, pull_state_eq, e3, hprune, hsorted, Store.zsetOf_setZ_self]
    simp only [List.drop_succ_cons, List.drop_zero]
    have hprune2 : zremUpTo (tp2 - W) [(m3.to_json, t3)] = [(m3.to_json, t3)] := by
      simp [zremUpTo, show tp2 - W < t3 by linarith]
    rw [hprune2]
    simp [sortScore, zinsert, parseMessages, DeviceMessage.from_json,
      DeviceMessage.to_json, hv3]
  · intro n t st2 msgs hok
    rw [pull_result_eq] at hok
    rw [parseMessages_length hok]
    exact List.length_take_le n _

theorem claim_C4_witness :
    (redis__pull_messages_for_device "ip1" "abcdefghabcdefghabcdefghabcdefgh" 2 5 60
        (redis__push_message_for_device "ip1" "abcdefghabcdefghabcdefghabcdefgh"
          (DeviceMessage.mk "abcdefghabcdefghabcdefghabcdefgh" "c" []) 3 60
          (redis__push_message_for_device "ip1" "abcdefghabcdefghabcdefghabcdefgh"
            (DeviceMessage.mk "abcdefghabcdefghabcdefghabcdefgh" "b" []) 2 60
            (redis__push_message_for_device "ip1" "abcdefghabcdefghabcdefghabcdefgh"
              (DeviceMessage.mk "abcdefghabcdefghabcdefghabcdefgh" "a" []) 1 60
              Store.empty)))).1 =
      .ok [DeviceMessage.mk "abcdefghabcdefghabcdefghabcdefgh" "a" [],
           DeviceMessage.mk "abcdefghabcdefghabcdefghabcdefgh" "b" []] ∧
    (redis__pull_messages_for_device "ip1" "abcdefghabcdefghabcdefghabcdefgh" 2 6 60
        (redis__pull_messages_for_device "ip1" "abcdefghabcdefghabcdefghabcdefgh" 2 5 60
          (redis__push_message_for_device "ip1" "abcdefghabcdefghabcdefghabcdefgh"
            (DeviceMessage.mk "abcdefghabcdefghabcdefghabcdefgh" "c" []) 3 60
            (redis__push_message_for_device "ip1" "abcdefghabcdefghabcdefghabcdefgh"
              (DeviceMessage.mk "abcdefghabcdefghabcdefghabcdefgh" "b" []) 2 60
              (redis__push_message_for_device "ip1" "abcdefghabcdefghabcdefghabcdefgh"
                (DeviceMessage.mk "abcdefghabcdefghabcdefghabcdefgh" "a" []) 1 60
                Store.empty)))).2).1 =
      .ok [DeviceMessage.mk "abcdefghabcdefghabcdefghabcdefgh" "c" []] ∧
    ([] : List DeviceMessage).length ≤ 2 :=
  have hc := claim_C4 "ip1" "abcdefghabcdefghabcdefghabcdefgh" Store.empty
    (DeviceMessage.mk "abcdefghabcdefghabcdefghabcdefgh" "a" [])
    (DeviceMessage.mk "abcdefghabcdefghabcdefghabcdefgh" "b" [])
    (DeviceMessage.mk "abcdefghabcdefghabcdefghabcdefgh" "c" [])
    1 2 3 5 6 60 (by decide) (by decide) (by decide) (by decide) (by decide)
    (by decide) (by decide) (by decide) (by decide) (by decide) (by decide) rfl
  ⟨hc.1, hc.2.1, hc.2.2 2 5 Store.empty [] (by decide)⟩

theorem Store.zsetOf_setStr_self (st : Store) (k : String) (s : RStr) :
    (st.setStr k s).zsetOf k = [] := by
  simp [Store.zsetOf, Store.setStr]

theorem activeDeviceIds_eq (ip : String) (t W : ℤ) (st : Store) :
    activeDeviceIds ip t W st =
      ((sortScore (zremUpTo (t - W) (st.zsetOf (redis__presence_key ip)))).filter
        (fun e => decide (t - W ≤ e.2))).map (fun e => e.1) := rfl

theorem parseInfos_mem_of {raws : List (Option RStr)} {l : List DeviceInfo}
    {i : DeviceInfo} (hok : parseInfos raws = .ok l)
    (hmem : some (RStr.infoJson i) ∈ raws) (hv : infoValidB i = true) : i ∈ l := by
  induction raws generalizing l with
  | nil => simp at hmem
  | cons r rest ih =>
    rcases List.mem_cons.mp hmem with hr | hr
    · subst hr
      rw [parseInfos] at hok
      cases hrest : parseInfos rest with
      | error e => rw [hrest] at hok; simp [RStr.isFalsy, DeviceInfo.from_json, hv] at hok
      | ok more =>
        rw [hrest] at hok
        simp [RStr.isFalsy, DeviceInfo.from_json, hv] at hok
        rw [← hok]
        exact List.mem_cons_self i more
    · cases r with
      | none =>
        rw [parseInfos] at hok
        exact ih hok hr
      | some v =>
        rw [parseInfos] at hok
        by_cases hf : v.isFalsy = true
        · rw [if_pos hf] at hok
          exact ih hok hr
        · rw [if_neg hf] at hok
          cases hfj : DeviceInfo.from_json v with
          | error e => rw [hfj] at hok; simp at hok
          | ok j =>
            rw [hfj] at hok
            cases hrest : parseInfos rest with
            | error e => rw [hrest] at hok; simp at hok
            | ok more =>
              rw [hrest] at hok
              simp only [Except.ok.injEq] at hok
              rw [← hok]
              exact List.mem_cons_of_mem _ (ih hrest hr)

theorem parseInfos_filterMap {raws : List (Option RStr)}
    (h : ∀ r ∈ raws, infoOkB r = true) :
    parseInfos raws = .ok (raws.filterMap (fun r => r.bind
      (fun v => if v.isFalsy then none else (DeviceInfo.from_json v).toOption))) := by
  induction raws with
  | nil => rfl
  | cons r rest ih =>
    have hrest := ih (fun x hx => h x (List.mem_cons_of_mem r hx))
    have hr := h r (List.mem_cons_self r rest)
    cases r with
    | none =>
      rw [parseInfos, hrest]
      simp [List.filterMap_cons]
    | some v =>
      by_cases hf : v.isFalsy = true
      · rw [parseInfos, if_pos hf, hrest]
        simp [List.filterMap_cons, hf]
      · have hok2 : ∃ j, DeviceInfo.from_json v = .ok j := by
          rcases hex : DeviceInfo.from_json v with e | j
          · exfalso
            simp only [infoOkB] at hr
            rw [hex] at hr
            simp [hf, Except.toOption] at hr
          · exact ⟨j, rfl⟩
        obtain ⟨j, hj⟩ := hok2
        rw [parseInfos, if_neg hf, hj, hrest]
        simp [List.filterMap_cons, hf, hj, Except.toOption]

theorem update_zsetOf_presence (st : Store) (ip d : String) (info : DeviceInfo)
    (t W : ℤ) :
    (redis__update_presence_for_device ip d info t W st).zsetOf
        (redis__presence_key ip) =
      zaddEntry (.plain d) t (st.zsetOf (redis__presence_key ip)) := by
  rw [update_eq, Store.zsetOf_setStr_ne _ _ _ _ (presence_key_ne_device_info_key ip d),
    Store.zsetOf_setZ_self]

theorem active_includes_updated (st : Store) (ip d : String) (info : DeviceInfo)
    (tu now W : ℤ) (hv : infoValidB info = true) (hkeep : now - W < tu) :
    ∀ l, (redis__active_devices_for_client_ip ip now W
        (redis__update_presence_for_device ip d info tu W st)).1 = .ok l →
      info ∈ l := by
  intro l hok
  rw [active_result_eq] at hok
  refine parseInfos_mem_of hok ?_ hv
  refine List.mem_map.mpr ⟨RStr.plain d, ?_, ?_⟩
  · rw [activeDeviceIds_eq, update_zsetOf_presence]
    refine List.mem_map.mpr ⟨(RStr.plain d, tu), ?_, rfl⟩
    refine List.mem_filter.mpr ⟨?_, ?_⟩
    · exact mem_sortScore.mpr (mem_zremUpTo.mpr ⟨mem_zaddEntry_self, hkeep⟩)
    · simp
      linarith
  · have hpy : (RStr.plain d).pyStr = d := rfl
    rw [hpy, Store.getStr_setZ_ne _ _ _ _
      (fun hh => presence_key_ne_device_info_key ip d hh.symm)]
    rw [update_eq]
    exact Store.getStr_setStr_self _ _ _

/-- Claim C3: after `updatePresence` for device `d` at `t2`, `listActiveDevices`
at `t2 + presenceWindow - ε` (ε > 0) includes `d`'s snapshot, while at
`t2 + presenceWindow + ε` the id `d` is no longer listed; in general every
listed id carries a presence score within `presenceWindow` of the call's
`now`. -/
theorem claim_C3 (st : Store) (ip d : String) (info : DeviceInfo) (t2 eps W : ℤ)
    (hv : infoValidB info = true) (heps : 0 < eps) :
    (∀ l, (redis__active_devices_for_client_ip ip (t2 + W - eps) W
        (redis__update_presence_for_device ip d info t2 W st)).1 = .ok l →
      info ∈ l) ∧
    RStr.plain d ∉ activeDeviceIds ip (t2 + W + eps) W
        (redis__update_presence_for_device ip d info t2 W st) ∧
    (∀ (now2 : ℤ) (st2 : Store) (dd : RStr), dd ∈ activeDeviceIds ip now2 W st2 →
      ∃ s, (dd, s) ∈ st2.zsetOf (redis__presence_key ip) ∧ now2 - W ≤ s) := by
  refine ⟨?_, ?_, ?_⟩
  · exact active_includes_updated st ip d info t2 (t2 + W - eps) W hv (by linarith)
  · intro hmem
    rw [activeDeviceIds_eq, update_zsetOf_presence] at hmem
    obtain ⟨e, he, hfst⟩ := List.mem_map.mp hmem
    have hef := List.mem_filter.mp he
    have hscore : (t2 + W + eps) - W ≤ e.2 := by simpa using hef.2
    have hel := mem_zremUpTo.mp (mem_sortScore.mp hef.1)
    have heq := zaddEntry_entry_eq hel.1 hfst
    have h2 := congrArg Prod.snd heq
    simp only at h2
    rw [h2] at hscore
    linarith
  · intro now2 st2 dd hmem
    rw [activeDeviceIds_eq] at hmem
    obtain ⟨e, he, hfst⟩ := List.mem_map.mp hmem
    have hef := List.mem_filter.mp he
    have h1 := mem_zremUpTo.mp (mem_sortScore.mp hef.1)
    refine ⟨e.2, ?_, by simpa using hef.2⟩
    rw [← hfst]
    exact h1.1

theorem claim_C3_witness :
    (DeviceInfo.mk "abcdefghabcdefghabcdefghabcdefgh" "host" "" "" "" "" "") ∈
      [DeviceInfo.mk "abcdefghabcdefghabcdefghabcdefgh" "host" "" "" "" "" ""] ∧
    RStr.plain "abcdefghabcdefghabcdefghabcdefgh" ∉ activeDeviceIds "ip1" 11 10
      (redis__update_presence_for_device "ip1" "abcdefghabcdefghabcdefghabcdefgh"
        (DeviceInfo.mk "abcdefghabcdefghabcdefghabcdefgh" "host" "" "" "" "" "") 0 10
        Store.empty) ∧
    (∃ s, (RStr.plain "abcdefghabcdefghabcdefghabcdefgh", s) ∈
        (redis__update_presence_for_device "ip1" "abcdefghabcdefghabcdefghabcdefgh"
          (DeviceInfo.mk "abcdefghabcdefghabcdefghabcdefgh" "host" "" "" "" "" "") 0 10
          Store.empty).zsetOf (redis__presence_key "ip1") ∧ (9 : ℤ) - 10 ≤ s) :=
  have hc := claim_C3 Store.empty "ip1" "abcdefghabcdefghabcdefghabcdefgh"
    (DeviceInfo.mk "abcdefghabcdefghabcdefghabcdefgh" "host" "" "" "" "" "") 0 1 10
    (by decide) (by decide)
  ⟨hc.1 [DeviceInfo.mk "abcdefghabcdefghabcdefghabcdefgh" "host" "" "" "" "" ""] (by decide),
   hc.2.1,
   hc.2.2 9 (redis__update_presence_for_device "ip1" "abcdefghabcdefghabcdefghabcdefgh"
     (DeviceInfo.mk "abcdefghabcdefghabcdefghabcdefgh" "host" "" "" "" "" "") 0 10
     Store.empty) (RStr.plain "abcdefghabcdefghabcdefghabcdefgh") (by decide)⟩

/-- Claim C5: the snapshot returned for an active device is the payload of
the latest `updatePresence` call for it (the `SETEX` of the later call
overwrites, whatever the relative order of the supplied timestamps),
round-tripped through serialization unchanged. -/
theorem claim_C5 (st : Store) (ip d : String) (i1 i2 : DeviceInfo) (ta tb now W : ℤ)
    (hv2 : infoValidB i2 = true) (hfresh : now - W < tb) :
    (redis__update_presence_for_device ip d i2 tb W
        (redis__update_presence_for_device ip d i1 ta W st)).getStr
      (redis__device_info_key ip d) = some (.infoJson i2) ∧
    (∀ l, (redis__active_devices_for_client_ip ip now W
        (redis__update_presence_for_device ip d i2 tb W
          (redis__update_presence_for_device ip d i1 ta W st))).1 = .ok l →
      i2 ∈ l) := by
  constructor
  · rw [update_eq]
    exact Store.getStr_setStr_self _ _ _
  · exact active_includes_updated _ ip d i2 tb now W hv2 hfresh

theorem claim_C5_witness :
    (redis__update_presence_for_device "ip1" "abcdefghabcdefghabcdefghabcdefgh"
        (DeviceInfo.mk "abcdefghabcdefghabcdefghabcdefgh" "second" "" "" "" "" "") 50 10
        (redis__update_presence_for_device "ip1" "abcdefghabcdefghabcdefghabcdefgh"
          (DeviceInfo.mk "abcdefghabcdefghabcdefghabcdefgh" "first" "" "" "" "" "") 100 10
          Store.empty)).getStr
      (redis__device_info_key "ip1" "abcdefghabcdefghabcdefghabcdefgh") =
      some (.infoJson (DeviceInfo.mk "abcdefghabcdefghabcdefghabcdefgh" "second" "" "" "" "" "")) ∧
    (DeviceInfo.mk "abcdefghabcdefghabcdefghabcdefgh" "second" "" "" "" "" "") ∈
      [DeviceInfo.mk "abcdefghabcdefghabcdefghabcdefgh" "second" "" "" "" "" ""] :=
  have hc := claim_C5 Store.empty "ip1" "abcdefghabcdefghabcdefghabcdefgh"
    (DeviceInfo.mk "abcdefghabcdefghabcdefghabcdefgh" "first" "" "" "" "" "")
    (DeviceInfo.mk "abcdefghabcdefghabcdefghabcdefgh" "second" "" "" "" "" "")
    100 50 55 10 (by decide) (by decide)
  ⟨hc.1, hc.2 [DeviceInfo.mk "abcdefghabcdefghabcdefghabcdefgh" "second" "" "" "" "" ""]
    (by decide)⟩

/-- Claim C7: `listActiveDevices` silently skips a fresh device id whose
snapshot key is absent (or empty), raising no error: when every present
snapshot decodes, the result is exactly the decoded snapshots of the
surviving ids whose snapshot is present. -/
theorem claim_C7 (st : Store) (ip : String) (now W : ℤ)
    (hgood : ∀ dd ∈ activeDeviceIds ip now W st,
      infoOkB (st.getStr (redis__device_info_key ip dd.pyStr)) = true) :
    (redis__active_devices_for_client_ip ip now W st).1 =
      .ok ((activeDeviceIds ip now W st).filterMap (fun dd =>
        (st.getStr (redis__device_info_key ip dd.pyStr)).bind
          (fun v => if v.isFalsy then none else (DeviceInfo.from_json v).toOption))) := by
  rw [active_result_eq]
  have hmapeq : (activeDeviceIds ip now W st).map (fun dd =>
      (st.setZ (redis__presence_key ip)
        (zremUpTo (now - W) (st.zsetOf (redis__presence_key ip)))).getStr
          (redis__device_info_key ip dd.pyStr)) =
      (activeDeviceIds ip now W st).map (fun dd =>
        st.getStr (redis__device_info_key ip dd.pyStr)) :=
    List.map_congr_left (fun dd _ => Store.getStr_setZ_ne _ _ _ _
      (fun hh => presence_key_ne_device_info_key ip dd.pyStr hh.symm))
  rw [hmapeq]
  rw [parseInfos_filterMap (fun r hrmem => by
    obtain ⟨dd, hdd, hfd⟩ := List.mem_map.mp hrmem
    rw [← hfd]
    exact hgood dd hdd)]
  rw [List.filterMap_map]
  rfl

theorem claim_C7_witness :
    (redis__active_devices_for_client_ip "ip1" 6 10
      ((Store.empty.setZ (redis__presence_key "ip1")
        [(.plain "abcdefghabcdefghabcdefghabcdefgh", 5),
         (.plain "bbcdefghabcdefghabcdefghabcdefgh", 5)]).setStr
        (redis__device_info_key "ip1" "abcdefghabcdefghabcdefghabcdefgh")
        (.infoJson (DeviceInfo.mk "abcdefghabcdefghabcdefghabcdefgh" "host" "" "" "" "" "")))).1 =
      .ok ((activeDeviceIds "ip1" 6 10
        ((Store.empty.setZ (redis__presence_key "ip1")
          [(.plain "abcdefghabcdefghabcdefghabcdefgh", 5),
           (.plain "bbcdefghabcdefghabcdefghabcdefgh", 5)]).setStr
          (redis__device_info_key "ip1" "abcdefghabcdefghabcdefghabcdefgh")
          (.infoJson (DeviceInfo.mk "abcdefghabcdefghabcdefghabcdefgh" "host" "" "" "" "" "")))).filterMap
        (fun dd =>
          (((Store.empty.setZ (redis__presence_key "ip1")
            [(.plain "abcdefghabcdefghabcdefghabcdefgh", 5),
             (.plain "bbcdefghabcdefghabcdefghabcdefgh", 5)]).setStr
            (redis__device_info_key "ip1" "abcdefghabcdefghabcdefghabcdefgh")
            (.infoJson (DeviceInfo.mk "abcdefghabcdefghabcdefghabcdefgh" "host" "" "" "" "" ""))).getStr
              (redis__device_info_key "ip1" dd.pyStr)).bind
            (fun v => if v.isFalsy then none else (DeviceInfo.from_json v).toOption))) :=
  claim_C7 ((Store.empty.setZ (redis__presence_key "ip1")
      [(.plain "abcdefghabcdefghabcdefghabcdefgh", 5),
       (.plain "bbcdefghabcdefghabcdefghabcdefgh", 5)]).setStr
      (redis__device_info_key "ip1" "abcdefghabcdefghabcdefghabcdefgh")
      (.infoJson (DeviceInfo.mk "abcdefghabcdefghabcdefghabcdefgh" "host" "" "" "" "" "")))
    "ip1" 6 10 (by decide)

theorem zaddEntry_keys_nodup {m : RStr} {s : ℤ} {l : List (RStr × ℤ)}
    (h : (l.map (fun e => e.1)).Nodup) :
    ((zaddEntry m s l).map (fun e => e.1)).Nodup := by
  unfold zaddEntry
  split
  case isTrue hany =>
    have heq : (l.map (fun e => if e.1 = m then (m, s) else e)).map (fun e => e.1) =
        l.map (fun e => e.1) := by
      rw [List.map_map]
      refine List.map_congr_left ?_
      intro e _
      by_cases h2 : e.1 = m
      · simp [Function.comp, h2]
      · simp [Function.comp, h2]
    rw [heq]
    exact h
  case isFalse hany =>
    have hnm : m ∉ l.map (fun e => e.1) := by
      intro hmm
      obtain ⟨e, he, hfe⟩ := List.mem_map.mp hmm
      exact absurd (List.any_eq_true.mpr ⟨e, he, by simp [hfe]⟩) hany
    rw [List.map_append]
    refine List.Nodup.append h (by simp) ?_
    intro a ha hb
    simp at hb
    subst hb
    exact hnm ha

theorem zremUpTo_keys_nodup {cut : ℤ} {l : List (RStr × ℤ)}
    (h : (l.map (fun e => e.1)).Nodup) :
    ((zremUpTo cut l).map (fun e => e.1)).Nodup :=
  h.sublist ((List.filter_sublist l).map _)

theorem reachable_keys_nodup {st : Store} (h : Reachable st) (k : String) :
    ((st.zsetOf k).map (fun e => e.1)).Nodup := by
  induction h with
  | empty => simp [Store.empty, Store.zsetOf]
  | push ip id m t W hst ih =>
    by_cases hk : k = redis__to_device_message_queue_key ip id
    · subst hk
      rw [push_eq, Store.zsetOf_setZ_self]
      exact zaddEntry_keys_nodup (zremUpTo_keys_nodup ih)
    · rw [push_eq, Store.zsetOf_setZ_ne _ _ _ _ hk]
      exact ih
  | pull ip id n t W hst ih =>
    rename_i stp
    by_cases hk : k = redis__to_device_message_queue_key ip id
    · subst hk
      rw [pull_state_eq, Store.zsetOf_setZ_self]
      have h1 : ((zremUpTo (t - W)
          (stp.zsetOf (redis__to_device_message_queue_key ip id))).map
            (fun e => e.1)).Nodup := zremUpTo_keys_nodup ih
      have h2 : ((sortScore (zremUpTo (t - W)
          (stp.zsetOf (redis__to_device_message_queue_key ip id)))).map
            (fun e => e.1)).Nodup :=
        (List.Perm.nodup_iff ((sortScore_perm _).map _)).mpr h1
      exact h2.sublist ((List.drop_sublist _ _).map _)
    · rw [pull_state_eq, Store.zsetOf_setZ_ne _ _ _ _ hk]
      exact ih
  | update ip id i t W hst ih =>
    by_cases hk1 : k = redis__device_info_key ip id
    · subst hk1
      rw [update_eq, Store.zsetOf_setStr_self]
      simp
    · rw [update_eq, Store.zsetOf_setStr_ne _ _ _ _ hk1]
      by_cases hk2 : k = redis__presence_key ip
      · subst hk2
        rw [Store.zsetOf_setZ_self]
        exact zaddEntry_keys_nodup ih
      · rw [Store.zsetOf_setZ_ne _ _ _ _ hk2]
        exact ih

/-- Claim C10: every mailbox (and in fact every ZSET) of a reachable store
holds at most one entry per serialized payload, and `pushMessage` with a
payload identical to an existing queue member re-dates that member (its
score becomes the new timestamp) without adding a second entry, even when
the scores differ. -/
theorem claim_C10 :
    (∀ st, Reachable st → ∀ k : String,
      ((st.zsetOf k).map (fun e => e.1)).Nodup) ∧
    (∀ (st : Store) (ip id : String) (m : DeviceMessage) (t W : ℤ),
      zscore ((redis__push_message_for_device ip id m t W st).zsetOf
        (redis__to_device_message_queue_key ip id)) m.to_json = some t ∧
      (m.to_json ∈ (zremUpTo (t - W)
          (st.zsetOf (redis__to_device_message_queue_key ip id))).map (fun e => e.1) →
        ((redis__push_message_for_device ip id m t W st).zsetOf
          (redis__to_device_message_queue_key ip id)).length =
        (zremUpTo (t - W)
          (st.zsetOf (redis__to_device_message_queue_key ip id))).length)) := by
  constructor
  · exact fun st h k => reachable_keys_nodup h k
  · intro st ip id m t W
    constructor
    · rw [push_eq, Store.zsetOf_setZ_self]
      exact zscore_zaddEntry _ _ _
    · intro hmem
      rw [push_eq, Store.zsetOf_setZ_self]
      obtain ⟨e, he, hfe⟩ := List.mem_map.mp hmem
      unfold zaddEntry
      rw [if_pos (List.any_eq_true.mpr ⟨e, he, by simp [hfe]⟩)]
      exact List.length_map _ _

theorem claim_C10_witness :
    (((redis__push_message_for_device "ip1" "abcdefghabcdefghabcdefghabcdefgh"
        (DeviceMessage.mk "abcdefghabcdefghabcdefghabcdefgh" "cmd" [("x", "1")]) 1 60
        Store.empty).zsetOf
      (redis__to_device_message_queue_key "ip1" "abcdefghabcdefghabcdefghabcdefgh")).map
        (fun e => e.1)).Nodup ∧
    zscore ((redis__push_message_for_device "ip1" "abcdefghabcdefghabcdefghabcdefgh"
        (DeviceMessage.mk "abcdefghabcdefghabcdefghabcdefgh" "cmd" [("x", "1")]) 5 60
        (Store.empty.setZ
          (redis__to_device_message_queue_key "ip1" "abcdefghabcdefghabcdefghabcdefgh")
          [(.msgJson (DeviceMessage.mk "abcdefghabcdefghabcdefghabcdefgh" "cmd" [("x", "1")]),
            3)])).zsetOf
      (redis__to_device_message_queue_key "ip1" "abcdefghabcdefghabcdefghabcdefgh"))
      (DeviceMessage.mk "abcdefghabcdefghabcdefghabcdefgh" "cmd" [("x", "1")]).to_json =
      some 5 ∧
    ((redis__push_message_for_device "ip1" "abcdefghabcdefghabcdefghabcdefgh"
        (DeviceMessage.mk "abcdefghabcdefghabcdefghabcdefgh" "cmd" [("x", "1")]) 5 60
        (Store.empty.setZ
          (redis__to_device_message_queue_key "ip1" "abcdefghabcdefghabcdefghabcdefgh")
          [(.msgJson (DeviceMessage.mk "abcdefghabcdefghabcdefghabcdefgh" "cmd" [("x", "1")]),
            3)])).zsetOf
      (redis__to_device_message_queue_key "ip1" "abcdefghabcdefghabcdefghabcdefgh")).length =
      (zremUpTo ((5 : ℤ) - 60)
        ((Store.empty.setZ
          (redis__to_device_message_queue_key "ip1" "abcdefghabcdefghabcdefghabcdefgh")
          [(.msgJson (DeviceMessage.mk "abcdefghabcdefghabcdefghabcdefgh" "cmd" [("x", "1")]),
            3)]).zsetOf
          (redis__to_device_message_queue_key "ip1" "abcdefghabcdefghabcdefghabcdefgh"))).length :=
  ⟨claim_C10.1 _ (Reachable.push "ip1" "abcdefghabcdefghabcdefghabcdefgh"
      (DeviceMessage.mk "abcdefghabcdefghabcdefghabcdefgh" "cmd" [("x", "1")]) 1 60
      Reachable.empty)
    (redis__to_device_message_queue_key "ip1" "abcdefghabcdefghabcdefghabcdefgh"),
   (claim_C10.2 (Store.empty.setZ
      (redis__to_device_message_queue_key "ip1" "abcdefghabcdefghabcdefghabcdefgh")
      [(.msgJson (DeviceMessage.mk "abcdefghabcdefghabcdefghabcdefgh" "cmd" [("x", "1")]), 3)])
      "ip1" "abcdefghabcdefghabcdefghabcdefgh"
      (DeviceMessage.mk "abcdefghabcdefghabcdefghabcdefgh" "cmd" [("x", "1")]) 5 60).1,
   (claim_C10.2 (Store.empty.setZ
      (redis__to_device_message_queue_key "ip1" "abcdefghabcdefghabcdefghabcdefgh")
      [(.msgJson (DeviceMessage.mk "abcdefghabcdefghabcdefghabcdefgh" "cmd" [("x", "1")]), 3)])
      "ip1" "abcdefghabcdefghabcdefghabcdefgh"
      (DeviceMessage.mk "abcdefghabcdefghabcdefghabcdefgh" "cmd" [("x", "1")]) 5 60).2
      (by decide)⟩
